import Mathlib

/-!
Verification of the duet task/habit backend: a shallow embedding of the
token service (`ServeLogin` / `VerifyToken` in the `data` package), the
request gate (`authGraphqlHandler` in `main`), and the ownership-scoped
data-access layer (`database.go`), together with theorems about the
properties the specification states for them.

The relational store reachable through gorm is modelled as explicit lists
of rows; each CRUD method of `gormDB` becomes a pure function on that
state.  JWT HMAC signing is modelled symbolically: a signature is the
(key, payload) pair that produced it, so verification succeeds exactly
when the recomputed signature with the service secret coincides — the
standard symbolic treatment of a MAC.
-/

namespace Duet

/-! ## Data model (database.go) -/

/-- `TaskKind`: discriminates one-off tasks from recurring habits. -/
inductive TaskKind where
  | TaskEnum
  | HabitEnum
deriving DecidableEq, Repr

/-- `Interval`: recurrence interval of a habit. -/
inductive Interval where
  | Daily
  | Weekly
  | Monthly
deriving DecidableEq, Repr

/-- `ActionKind`: kind of an event on a task. -/
inductive ActionKind where
  | ActionProgress
  | ActionDefer
  | ActionDone
deriving DecidableEq, Repr

/-- `Action` row: `{Id, Kind, When (*time.Time), TaskId}`.  Timestamps are
modelled as natural numbers; a `*time.Time` becomes an `Option Nat`. -/
structure Action where
  id : String
  kind : ActionKind
  whenAt : Option Nat
  taskId : String
deriving DecidableEq, Repr

/-- `Task` row, with the common fields, the task-only date fields and the
habit-only interval/frequency fields, exactly as in `database.go`. -/
structure Task where
  createdAt : Nat
  updatedAt : Nat
  deletedAt : Option Nat
  id : String
  kind : TaskKind
  title : String
  done : Bool
  userId : Nat
  actions : List Action
  startDate : Option Nat
  endDate : Option Nat
  interval : Interval
  frequency : Int
deriving DecidableEq, Repr

/-- Symbolic bcrypt digest: `bcrypt.GenerateFromPassword` is modelled as an
injective tagging of the plaintext (a salted hash uniquely determined by its
input in the symbolic model). -/
structure BcryptHash where
  plaintext : String
deriving DecidableEq, Repr

/-- `bcrypt.GenerateFromPassword(password, bcryptCost)` (symbolic). -/
def generateFromPassword (password : String) : BcryptHash :=
  ⟨password⟩

/-- `User` row: `{Id, Username (unique), HashedPassword, ...}`. -/
structure User where
  id : Nat
  createdAt : Nat
  updatedAt : Nat
  deletedAt : Option Nat
  username : String
  hashedPassword : BcryptHash
deriving DecidableEq, Repr

/-- The relational store behind `gormDB`: one list of rows per table. -/
structure Store where
  tasks : List Task
  actions : List Action
  users : List User
deriving DecidableEq, Repr

/-- Errors surfaced by the data-access layer.  `recordNotFound` is gorm's
`ErrRecordNotFound` from `First`; `taskNotFoundForUser` is the
`fmt.Errorf("Task %s does not exist for user %d", ...)` of `AddAction`;
`uniqueViolation` is the unique-constraint failure on `users.username`. -/
inductive DBError where
  | recordNotFound
  | taskNotFoundForUser (taskId : String) (userId : Nat)
  | notAuthorizedForAction (id : String)
  | uniqueViolation
deriving DecidableEq, Repr

/-! ## Access-scoped data store (gormDB methods) -/

/-- The `whereFields` filter of `GetTask`: `id`, `user_id`, and `kind` only
when a kind was requested. -/
def taskMatches (taskId : String) (userId : Nat) (kind : Option TaskKind)
    (t : Task) : Bool :=
  t.id == taskId && t.userId == userId &&
    (match kind with
     | none => true
     | some k => t.kind == k)

/-- `gormDB.GetTask(taskId, userId, kind)`: `First` on the rows matching
`whereFields`, `ErrRecordNotFound` when none matches. -/
def GetTask (db : Store) (taskId : String) (userId : Nat)
    (kind : Option TaskKind) : Except DBError Task :=
  match db.tasks.find? (taskMatches taskId userId kind) with
  | some t => .ok t
  | none => .error .recordNotFound

/-- `gormDB.GetTasks(userId, kind)`: all rows with `user_id = userId`
(and the requested kind, when given). -/
def GetTasks (db : Store) (userId : Nat) (kind : Option TaskKind) :
    List Task :=
  db.tasks.filter (fun t =>
    t.userId == userId &&
      (match kind with
       | none => true
       | some k => t.kind == k))

/-- `gormDB.AddTask(task, userId)`: overwrites `task.UserId` with the
caller's id, then `Create`s the row.  Returns the updated store and the row
as stored. -/
def AddTask (db : Store) (task : Task) (userId : Nat) : Store × Task :=
  let stamped := { task with userId := userId }
  ({ db with tasks := db.tasks ++ [stamped] }, stamped)

/-- `gormDB.DeleteTask(taskId, userId)`: deletes the rows matching
`{Id: taskId, UserId: userId}` and reports `RowsAffected > 0`.  The pure
relational model has no underlying store failure, so the `error` component
of the Go result is always `none` here, mirroring the non-error path. -/
def DeleteTask (db : Store) (taskId : String) (userId : Nat) :
    Store × Bool × Option DBError :=
  let rowMatches := fun (t : Task) => t.id == taskId && t.userId == userId
  let rowsAffected := db.tasks.countP rowMatches
  ({ db with tasks := db.tasks.filter (fun t => ! rowMatches t) },
   decide (0 < rowsAffected), none)

/-- `gormDB.CreateUser(username, password)`: bcrypt-hashes the password and
`Create`s the row; the unique constraint on `username` makes the insert fail
on a duplicate. -/
def CreateUser (db : Store) (username password : String) :
    Except DBError (Store × User) :=
  if db.users.any (fun u => u.username == username) then
    .error .uniqueViolation
  else
    let user : User :=
      { id := db.users.length + 1
        createdAt := 0, updatedAt := 0, deletedAt := none
        username := username
        hashedPassword := generateFromPassword password }
    .ok ({ db with users := db.users ++ [user] }, user)

/-- `gormDB.GetUserByUsername(username)`. -/
def GetUserByUsername (db : Store) (username : String) :
    Except DBError User :=
  match db.users.find? (fun u => u.username == username) with
  | some u => .ok u
  | none => .error .recordNotFound

/-- `gormDB.AddAction(action, userId)`: loads the parent task scoped to
`userId` via `GetTask`; on failure `task == nil` and the method returns its
own error before touching the actions table; on success it `Create`s the
action.  Returns the (possibly unchanged) store and the error, if any. -/
def AddAction (db : Store) (action : Action) (userId : Nat) :
    Store × Option DBError :=
  match GetTask db action.taskId userId none with
  | .error _ => (db, some (.taskNotFoundForUser action.taskId userId))
  | .ok _ => ({ db with actions := db.actions ++ [action] }, none)

/-! ## Token service (ServeLogin / VerifyToken) -/

/-- `jwt.StandardClaims` as populated by `ServeLogin`: only subject, issuer
and audience are set; no expiry is ever written, so the library's claim
validation is vacuous. -/
structure StandardClaims where
  subject : String
  issuer : String
  audience : String
deriving DecidableEq, Repr

/-- `DuetClaims` embeds `jwt.StandardClaims`. -/
structure DuetClaims where
  std : StandardClaims
deriving DecidableEq, Repr

/-- The hardcoded signing secret `tokenSecret = []byte("someSecret")`. -/
def tokenSecret : String := "someSecret"

/-- A symbolic HMAC signature: the key and the signed payload
(header algorithm + claims).  Two signatures are equal exactly when both
key and payload agree — HMAC as a collision-free symbolic MAC. -/
structure Sig where
  key : String
  alg : String
  claims : DuetClaims
deriving DecidableEq, Repr

/-- A parsed compact JWS: header algorithm, claims, signature. -/
structure SignedToken where
  alg : String
  claims : DuetClaims
  sig : Sig
deriving DecidableEq, Repr

/-- `token.SignedString(key)` for a token built by `jwt.NewWithClaims`
with the given method and claims. -/
def signedString (alg : String) (claims : DuetClaims) (key : String) :
    SignedToken :=
  ⟨alg, claims, ⟨key, alg, claims⟩⟩

/-- The token `ServeLogin` issues for a username:
`jwt.NewWithClaims(jwt.SigningMethodHS256, DuetClaims{...}).SignedString(tokenSecret)`. -/
def serveLoginToken (username : String) : SignedToken :=
  signedString "HS256"
    ⟨⟨username, "Duet", "https://api.helloduet.com"⟩⟩ tokenSecret

/-- Errors of `VerifyToken`: a parse failure on a malformed string, the
key-function's `Unexpected signing method` rejection, and the library's
signature-mismatch failure. -/
inductive TokenError where
  | malformed
  | wrongAlgorithm
  | badSignature
deriving DecidableEq, Repr

/-- `VerifyToken(tokenString)`.  A token string either parses to a
`SignedToken` or is malformed (`none`).  `jwt.ParseWithClaims` first calls
the key function — which rejects any algorithm other than HS256 — then
checks the signature against `tokenSecret`; the claims carry no expiry, so
`token.Valid` holds whenever the signature does. -/
def VerifyToken (tokenString : Option SignedToken) :
    Except TokenError DuetClaims :=
  match tokenString with
  | none => .error .malformed
  | some t =>
    if t.alg ≠ "HS256" then .error .wrongAlgorithm
    else if t.sig ≠ ⟨tokenSecret, t.alg, t.claims⟩ then .error .badSignature
    else .ok t.claims

/-- The observable outcome of `ServeLogin`. -/
inductive LoginResult where
  | tokenIssued (t : SignedToken)
  | invalidCredentials
  | serverError
deriving DecidableEq, Repr

/-- `ServeLogin`: decodes the JSON payload (decode failure → 500), logs the
credentials, and issues a signed token for the username.  The source
contains `// TODO verify password`: the password is never checked against
the credential store. -/
def ServeLogin (payload : Option (String × String)) : LoginResult :=
  match payload with
  | none => .serverError
  | some (username, _) => .tokenIssued (serveLoginToken username)

/-! ## Request gate (authGraphqlHandler in main) -/

/-- A request context, as built by the gate: `context.WithTimeout` sets the
deadline, `context.WithValue(ctx, data.UserIdKey, userId)` sets the user-id
value under the well-known key. -/
structure Ctx where
  deadlineMs : Option Nat
  userIdValue : Option Nat
deriving DecidableEq, Repr

/-- The timeout the gate configures: `500*time.Millisecond`. -/
def gateTimeoutMs : Nat := 500

/-- The calls the gate makes after extracting the bearer token, each
recorded with the context that call receives (`none` when the call is made
without a context argument). -/
inductive GateEvent where
  | callAuthUserId (ctx : Option Ctx)
  | callHandler (ctx : Ctx)
deriving DecidableEq, Repr

/-- The HTTP-visible outcome of the gate. -/
inductive GateResult where
  | rejected401 (msg : String)
  | handled (ctx : Ctx)
deriving DecidableEq, Repr

/-- `authGraphqlHandler`, parameterized by the outcomes of the two helpers
it calls (`data.GetBearerToken` on the request, `data.AuthUserId` on the
token).  It extracts the bearer token (failure → 401), builds the 500 ms
timeout context, calls `data.AuthUserId(token)` — passing only the token,
no context — (failure → 401 `"Invalid token"`), attaches the user id to the
timeout context, and only then invokes the wrapped GraphQL handler with
that context.  The returned trace lists the calls made, each with the
context it received. -/
def authGraphqlHandler (bearer : Except String String)
    (authUserId : String → Except String Nat) :
    List GateEvent × GateResult :=
  match bearer with
  | .error e => ([], .rejected401 e)
  | .ok token =>
    let ctx : Ctx := { deadlineMs := some gateTimeoutMs, userIdValue := none }
    match authUserId token with
    | .error _ => ([.callAuthUserId none], .rejected401 "Invalid token")
    | .ok userId =>
      let ctx2 := { ctx with userIdValue := some userId }
      ([.callAuthUserId none, .callHandler ctx2], .handled ctx2)

/-- Formalisation of the spec's deadline sentence (for comparison with the
code): every token-verification/identity-resolution call the gate makes is
executed under a context carrying a deadline. -/
def verifyBoundedByDeadline (tr : List GateEvent) : Prop :=
  ∀ o, GateEvent.callAuthUserId o ∈ tr →
    ∃ c, o = some c ∧ ∃ d, c.deadlineMs = some d

/-! ## gormDB.Close -/

/-- `func (db gormDB) Close() error { return db.Close() }`: inside the
method, `db.Close()` resolves to the method being defined (it shadows the
promoted `(*gorm.DB).Close` of the embedded field), so the body is a direct
self-call.  Modelled with explicit fuel: `underlying` is the result the
embedded gorm handle's `Close` would return, and each fuel step is one
recursive call; `none` means no value was produced within that many calls. -/
def gormDBClose (underlying : Option String) : Nat → Option (Option String)
  | 0 => none
  | n + 1 => gormDBClose underlying n

/-! ## Concrete demo rows shared by the witnesses -/

/-- A concrete task row owned by user 2. -/
def demoTask : Task :=
  { createdAt := 0, updatedAt := 0, deletedAt := none, id := "t1"
    kind := .TaskEnum, title := "Buy milk", done := false, userId := 2
    actions := [], startDate := none, endDate := none
    interval := .Daily, frequency := 0 }

/-- A concrete store holding only `demoTask`. -/
def demoStore : Store := { tasks := [demoTask], actions := [], users := [] }

/-- A concrete action pointing at `demoTask`. -/
def demoAction : Action :=
  { id := "a1", kind := .ActionDone, whenAt := some 10, taskId := "t1" }

/-- The store with every task of a given id removed — the "id does not
exist at all" counterpart used to compare the two `GetTask` runs. -/
def tasksWithout (db : Store) (taskId : String) : Store :=
  { db with tasks := db.tasks.filter (fun t => t.id != taskId) }

/-! ## Theorems -/

/-- C1: the claim requires a login with a wrong password to fail with
`InvalidCredentialsError`.  `ServeLogin` contains `// TODO verify password`
and issues a signed token for the submitted username whatever the password
is — it never consults the credential store, so no password ever fails. -/
theorem serveLogin_ignores_password (username password : String) :
    ServeLogin (some (username, password)) =
      .tokenIssued (serveLoginToken username) ∧
    ServeLogin (some (username, password)) ≠ .invalidCredentials := by
  refine ⟨rfl, ?_⟩
  simp [ServeLogin]

/-- C4: `AddTask` stamps the caller's `userId` onto the task before
`Create`, so the stored row is owned by the caller no matter what owner the
caller wrote into the task value. -/
theorem addTask_stamps_caller (db : Store) (task : Task)
    (attacker realUserId : Nat) :
    (AddTask db { task with userId := attacker } realUserId).2.userId =
      realUserId ∧
    (AddTask db { task with userId := attacker } realUserId).1.tasks =
      db.tasks ++ [{ task with userId := realUserId }] :=
  ⟨rfl, rfl⟩

/-- C5: verifying the token `ServeLogin` issues for `u` succeeds and
returns claims whose subject is `u` (issuer `Duet`, audience
`https://api.helloduet.com`). -/
theorem issue_then_verify_roundtrip (u : String) :
    VerifyToken (some (serveLoginToken u)) =
      .ok ⟨⟨u, "Duet", "https://api.helloduet.com"⟩⟩ ∧
    ∀ c, VerifyToken (some (serveLoginToken u)) = .ok c →
      c.std.subject = u := by
  refine ⟨?_, ?_⟩
  · simp [VerifyToken, serveLoginToken, signedString]
  · intro c hc
    simp [VerifyToken, serveLoginToken, signedString] at hc
    simp [← hc]

/-- Witness for `issue_then_verify_roundtrip`: verifying the token issued
for `"alice"` yields claims with subject `"alice"`. -/
theorem issue_then_verify_roundtrip_witness :
    (⟨⟨"alice", "Duet", "https://api.helloduet.com"⟩⟩ : DuetClaims).std.subject
      = "alice" :=
  (issue_then_verify_roundtrip "alice").2
    ⟨⟨"alice", "Duet", "https://api.helloduet.com"⟩⟩
    (issue_then_verify_roundtrip "alice").1

/-- C6: a token signed with a different secret fails `VerifyToken` with
`badSignature`; one signed with an algorithm other than HS256 fails with
`wrongAlgorithm` (the key function rejects it before the signature is
checked); a malformed token string fails with `malformed`.  In every case an
error is returned, never valid claims. -/
theorem verifyToken_rejects_forged (alg key : String) (claims : DuetClaims)
    (h : key ≠ tokenSecret ∨ alg ≠ "HS256") :
    VerifyToken (some (signedString alg claims key)) =
      .error (if alg = "HS256" then .badSignature else .wrongAlgorithm) ∧
    VerifyToken none = .error .malformed := by
  refine ⟨?_, rfl⟩
  by_cases halg : alg = "HS256"
  · have hkey : key ≠ tokenSecret := by
      rcases h with hk | ha
      · exact hk
      · exact absurd halg ha
    simp [VerifyToken, signedString, halg, Sig.mk.injEq, hkey]
  · simp [VerifyToken, signedString, halg]

/-- Witness for `verifyToken_rejects_forged`: a token over the service's
exact claims but signed with the secret `"otherSecret"` is rejected with
`badSignature`, and the malformed string is rejected with `malformed`. -/
theorem verifyToken_rejects_forged_witness :
    VerifyToken (some (signedString "HS256"
        ⟨⟨"alice", "Duet", "https://api.helloduet.com"⟩⟩ "otherSecret")) =
      .error .badSignature ∧
    VerifyToken none = .error .malformed := by
  have h := verifyToken_rejects_forged "HS256" "otherSecret"
    ⟨⟨"alice", "Duet", "https://api.helloduet.com"⟩⟩ (Or.inl (by decide))
  simpa using h

/-- C10: `gormDB.Close` returns `db.Close()`, which resolves to the method
itself rather than the embedded `gorm.DB`'s `Close`; the recursion never
produces a value for any amount of fuel — the underlying connection is
never closed and the call does not terminate. -/
theorem close_never_terminates (underlying : Option String) (fuel : Nat) :
    gormDBClose underlying fuel = none := by
  induction fuel with
  | zero => rfl
  | succ n ih => simpa [gormDBClose] using ih

/-- C2: the gate dispatches to the wrapped GraphQL handler exactly when
bearer-token extraction and identity resolution both succeed, and then the
context holds that user id under the user-id key; on any failure the result
is a 401 rejection and no handler call appears in the trace. -/
theorem authGraphqlHandler_gates (bearer : Except String String)
    (authUserId : String → Except String Nat) :
    (∀ c, (authGraphqlHandler bearer authUserId).2 = .handled c →
       ∃ tok uid, bearer = .ok tok ∧ authUserId tok = .ok uid ∧
         c.userIdValue = some uid) ∧
    (((∃ e, bearer = .error e) ∨
        (∃ tok e, bearer = .ok tok ∧ authUserId tok = .error e)) →
      (∃ msg, (authGraphqlHandler bearer authUserId).2 = .rejected401 msg) ∧
      ∀ c, GateEvent.callHandler c ∉ (authGraphqlHandler bearer authUserId).1) := by
  cases hb : bearer with
  | error e =>
    refine ⟨?_, ?_⟩
    · intro c hc
      simp [authGraphqlHandler] at hc
    · intro _
      exact ⟨⟨e, rfl⟩, by intro c; simp [authGraphqlHandler]⟩
  | ok tok =>
    cases ha : authUserId tok with
    | error e2 =>
      refine ⟨?_, ?_⟩
      · intro c hc
        simp [authGraphqlHandler, ha] at hc
      · intro _
        exact ⟨⟨"Invalid token", by simp [authGraphqlHandler, ha]⟩,
               by intro c; simp [authGraphqlHandler, ha]⟩
    | ok uid =>
      refine ⟨?_, ?_⟩
      · intro c hc
        simp only [authGraphqlHandler, ha] at hc
        exact ⟨tok, uid, rfl, ha, by
          cases hc
          rfl⟩
      · rintro (⟨e, he⟩ | ⟨tok2, e2, htok, he⟩)
        · exact absurd he (by simp)
        · have heq : tok2 = tok := by
            injection htok with h2
            exact h2.symm
          rw [heq] at he
          rw [ha] at he
          exact absurd he (by simp)

/-- Witness for `authGraphqlHandler_gates`: a request whose bearer-token
extraction fails is rejected with 401 and the handler is never called. -/
theorem authGraphqlHandler_gates_witness :
    (∃ msg, (authGraphqlHandler (.error "Invalid authentication method")
        (fun _ => .ok 1)).2 = .rejected401 msg) ∧
    ∀ c, GateEvent.callHandler c ∉
      (authGraphqlHandler (.error "Invalid authentication method")
        (fun _ => .ok 1)).1 :=
  (authGraphqlHandler_gates (.error "Invalid authentication method")
    (fun _ => .ok 1)).2 (Or.inl ⟨_, rfl⟩)

/-- C3: for distinct users A and B, when every task with the requested id
is owned by B, `GetTask(id, A)` returns `recordNotFound`, and it returns
exactly the same outcome on the store from which the id has been removed
entirely — a non-owner cannot distinguish "exists but not owned" from
"does not exist". -/
theorem getTask_hides_existence (db : Store) (taskId : String)
    (userA userB : Nat) (kind : Option TaskKind)
    (hab : userA ≠ userB)
    (hown : ∀ t ∈ db.tasks, t.id = taskId → t.userId = userB) :
    GetTask db taskId userA kind = .error .recordNotFound ∧
    GetTask (tasksWithout db taskId) taskId userA kind =
      .error .recordNotFound := by
  have key : ∀ (l : List Task), (∀ t ∈ l, t.id = taskId → t.userId = userB) →
      l.find? (taskMatches taskId userA kind) = none := by
    intro l hl
    rw [List.find?_eq_none]
    intro t ht hmt
    simp only [taskMatches, Bool.and_eq_true, beq_iff_eq] at hmt
    exact hab (hmt.1.2.symm.trans (hl t ht hmt.1.1))
  refine ⟨?_, ?_⟩
  · unfold GetTask
    rw [key db.tasks hown]
  · unfold GetTask
    rw [key (tasksWithout db taskId).tasks ?_]
    intro t ht hid
    simp only [tasksWithout, List.mem_filter, bne_iff_ne, ne_eq] at ht
    exact absurd hid ht.2

/-- Witness for `getTask_hides_existence`: user 1 asking for `"t1"`, which
is owned by user 2, gets `recordNotFound`, the same as on the store without
any `"t1"` row. -/
theorem getTask_hides_existence_witness :
    GetTask demoStore "t1" 1 none = .error .recordNotFound ∧
    GetTask (tasksWithout demoStore "t1") "t1" 1 none =
      .error .recordNotFound :=
  getTask_hides_existence demoStore "t1" 1 2 none (by decide) (by decide)

/-- C7: when the owner-scoped load of the parent task fails — the task does
not exist or belongs to someone else — `AddAction` returns an error and
leaves the store untouched: no action row is created. -/
theorem addAction_checks_ownership (db : Store) (action : Action)
    (userId : Nat)
    (h : GetTask db action.taskId userId none = .error .recordNotFound) :
    AddAction db action userId =
      (db, some (.taskNotFoundForUser action.taskId userId)) := by
  unfold AddAction
  rw [h]

/-- Witness for `addAction_checks_ownership`: user 1 adding an action to
`"t1"`, which is owned by user 2, gets the error and the store is
unchanged. -/
theorem addAction_checks_ownership_witness :
    AddAction demoStore demoAction 1 =
      (demoStore, some (.taskNotFoundForUser "t1" 1)) :=
  addAction_checks_ownership demoStore demoAction 1 rfl

/-- C8: `DeleteTask` on an id with no row owned by the caller returns
`(false, nil)` with the store unchanged — not an error; when an owned row
exists, it reports `true`, still no error, and the matching rows are
gone. -/
theorem deleteTask_idempotent (db : Store) (taskId : String) (userId : Nat) :
    ((∀ t ∈ db.tasks, ¬(t.id = taskId ∧ t.userId = userId)) →
       DeleteTask db taskId userId = (db, false, none)) ∧
    ((∃ t ∈ db.tasks, t.id = taskId ∧ t.userId = userId) →
       (DeleteTask db taskId userId).2.1 = true ∧
       (DeleteTask db taskId userId).2.2 = none ∧
       ∀ t ∈ (DeleteTask db taskId userId).1.tasks,
         ¬(t.id = taskId ∧ t.userId = userId)) := by
  constructor
  · intro h
    have hfalse : ∀ t ∈ db.tasks,
        (t.id == taskId && t.userId == userId) = false := by
      intro t ht
      have hnot := h t ht
      by_cases hid : t.id = taskId
      · have : t.userId ≠ userId := fun hu => hnot ⟨hid, hu⟩
        simp [hid, this]
      · simp [hid]
    have hcount :
        db.tasks.countP (fun t => t.id == taskId && t.userId == userId)
          = 0 := by
      rw [List.countP_eq_zero]
      intro t ht
      simp [hfalse t ht]
    have hfilter :
        db.tasks.filter (fun t => !(t.id == taskId && t.userId == userId))
          = db.tasks := by
      rw [List.filter_eq_self]
      intro t ht
      simp [hfalse t ht]
    rw [show DeleteTask db taskId userId =
        ({ db with tasks :=
            db.tasks.filter (fun t => !(t.id == taskId && t.userId == userId)) },
         decide (0 < db.tasks.countP
            (fun t => t.id == taskId && t.userId == userId)), none) from rfl,
       hcount, hfilter]
    simp
  · rintro ⟨t0, ht0, hid, huser⟩
    have hpos :
        0 < db.tasks.countP (fun t => t.id == taskId && t.userId == userId) := by
      rw [List.countP_pos_iff]
      exact ⟨t0, ht0, by simp [hid, huser]⟩
    refine ⟨?_, ?_, ?_⟩
    · simp only [DeleteTask, decide_eq_true_eq]
      exact hpos
    · simp [DeleteTask]
    · intro t ht hc
      simp only [DeleteTask, List.mem_filter] at ht
      have hkept := ht.2
      simp [hc.1, hc.2] at hkept

/-- Witness for `deleteTask_idempotent`: deleting the absent id `"t2"`
returns `(false, nil)` and leaves the store as it was; deleting `"t1"` as
its owner (user 2) reports `true`. -/
theorem deleteTask_idempotent_witness :
    DeleteTask demoStore "t2" 2 = (demoStore, false, none) ∧
    (DeleteTask demoStore "t1" 2).2.1 = true :=
  ⟨(deleteTask_idempotent demoStore "t2" 2).1 (by decide),
   ((deleteTask_idempotent demoStore "t1" 2).2
     ⟨demoTask, by decide, by decide⟩).1⟩

/-- C9 counterexample: the claim asserts that the verify+resolve sequence
runs under the 500 ms deadline.  On a concrete successful request the trace
shows `AuthUserId` is called with no context at all — the timeout context
exists but is not what the verification runs under. -/
theorem gateDeadline_claim_false :
    ¬ verifyBoundedByDeadline
        (authGraphqlHandler (.ok "tok") (fun _ => .ok 7)).1 := by
  intro h
  obtain ⟨c, hc, -⟩ := h none (by simp [authGraphqlHandler])
  exact Option.noConfusion hc

/-- C9 amended: the gate builds a 500 ms-deadline context but attaches it
(with the resolved user id) only to the wrapped GraphQL handler call;
`AuthUserId` is invoked with nothing but the token, so verification and
identity resolution are not bounded by the deadline, and the gate's only
outcomes are 401 rejections and a successful dispatch — it has no
timeout-abort path of its own. -/
theorem gateDeadline_actual (bearer : Except String String)
    (authUserId : String → Except String Nat) :
    (∀ o, GateEvent.callAuthUserId o ∈
        (authGraphqlHandler bearer authUserId).1 → o = none) ∧
    (∀ c, GateEvent.callHandler c ∈
        (authGraphqlHandler bearer authUserId).1 →
      c.deadlineMs = some gateTimeoutMs) ∧
    ((∃ msg, (authGraphqlHandler bearer authUserId).2 = .rejected401 msg) ∨
      ∃ c, (authGraphqlHandler bearer authUserId).2 = .handled c) := by
  cases hb : bearer with
  | error e =>
    refine ⟨?_, ?_, Or.inl ⟨e, rfl⟩⟩
    · intro o ho
      simp [authGraphqlHandler] at ho
    · intro c hcm
      simp [authGraphqlHandler] at hcm
  | ok tok =>
    cases ha : authUserId tok with
    | error e2 =>
      refine ⟨?_, ?_, Or.inl ⟨"Invalid token", by simp [authGraphqlHandler, ha]⟩⟩
      · intro o ho
        simp [authGraphqlHandler, ha] at ho
        exact ho
      · intro c hcm
        simp [authGraphqlHandler, ha] at hcm
    | ok uid =>
      refine ⟨?_, ?_,
        Or.inr ⟨⟨some gateTimeoutMs, some uid⟩, by simp [authGraphqlHandler, ha]⟩⟩
      · intro o ho
        simp [authGraphqlHandler, ha] at ho
        exact ho
      · intro c hcm
        simp [authGraphqlHandler, ha] at hcm
        rw [hcm]

/-- Witness for `gateDeadline_actual`: on a concrete successful request the
handler-call context carries the 500 ms deadline. -/
theorem gateDeadline_actual_witness :
    (Ctx.mk (some gateTimeoutMs) (some 7)).deadlineMs = some gateTimeoutMs :=
  (gateDeadline_actual (.ok "tok2") (fun _ => .ok 7)).2.1
    ⟨some gateTimeoutMs, some 7⟩ (by simp [authGraphqlHandler])

end Duet
